import Mathlib

/-!
Shallow embedding of the authentication / session / audit core of the
whatsapp-forensic-analyzer backend (src/backend/app): the Redis sliding-window
rate limiter (core/rate_limiter.py), JWT helpers (core/security.py), the
AuthService (services/auth_service.py), the audit-log middleware
(middleware/audit.py) and the admin list_users endpoint (api/auth.py).

Machine conventions: timestamps are `Int` seconds since the epoch (Python
`datetime.timestamp()` values), durations are seconds.  Fallible Python code
is embedded with `Except`; the external bcrypt verifier and the UUID parser
are passed in as parameters because their implementations live outside the
repository.
-/

namespace WFA

/-- Configuration defaults from core/config.py (class Settings). -/
structure Settings where
  APP_NAME : String
  JWT_EXPIRATION_HOURS : Int
  REFRESH_TOKEN_EXPIRY_DAYS : Int
  LOGIN_RATE_LIMIT_PER_15MIN : Nat
deriving Repr

/-- The default settings instance (config.py lines 28, 37, 116-117, 157). -/
def settings : Settings :=
  { APP_NAME := "WhatsApp Forensic Analyzer"
    JWT_EXPIRATION_HOURS := 8
    REFRESH_TOKEN_EXPIRY_DAYS := 30
    LOGIN_RATE_LIMIT_PER_15MIN := 5 }

/-- Python logging levels used by the embedded components. -/
inductive LogLevel
  | info
  | warning
  | error
deriving DecidableEq, Repr

/-! ## Rate limiter (core/rate_limiter.py, RedisRateLimiter)

The Redis sorted set `ratelimit:key` is modelled per key as a list of scores.
`zadd` keys members by `str(now.timestamp())`, so two attempts recorded at the
same timestamp collapse into a single member; the model deduplicates
accordingly.  The `expire` call in `record_attempt` is a cleanup safety net:
a key only expires after a full idle window, at which point every score is
outside the window anyway and `zremrangebyscore` would discard them all, so
key-level TTL does not change any `check_rate_limit` outcome and is not
modelled separately.  A raising backend is modelled by the `failing` flag:
when set, every Redis call takes the `except` branch of the Python code. -/

structure RedisStore where
  entries : List (String × List Int) := []
  failing : Bool := false
deriving DecidableEq, Repr

/-- Members of the sorted set at `ratelimit:key` (empty when the key is absent). -/
def RedisStore.getKey (r : RedisStore) (key : String) : List Int :=
  match r.entries.find? (fun e => e.1 == key) with
  | some e => e.2
  | none => []

/-- Replace the member list stored at `ratelimit:key`. -/
def RedisStore.setKey (r : RedisStore) (key : String) (v : List Int) : RedisStore :=
  if (r.entries.find? (fun e => e.1 == key)).isSome then
    { r with entries := r.entries.map (fun e => if e.1 == key then (e.1, v) else e) }
  else
    { r with entries := r.entries ++ [(key, v)] }

/-- `DEL ratelimit:key`. -/
def RedisStore.delKey (r : RedisStore) (key : String) : RedisStore :=
  { r with entries := r.entries.filter (fun e => !(e.1 == key)) }

/-- Result of `RedisRateLimiter.check_rate_limit`, together with the store
state after pruning and the log records emitted. -/
structure RLCheck where
  allowed : Bool
  remaining : Nat
  redis : Option RedisStore
  logs : List LogLevel
deriving DecidableEq, Repr

/-- `RedisRateLimiter.check_rate_limit` (rate_limiter.py lines 52-98).
`self.redis is None` and the raising backend both fail open.
`zremrangebyscore(key, 0, window_start)` removes scores in `[0, ws]`,
keeping scores that are negative or greater than `ws`. -/
def check_rate_limit (redis : Option RedisStore) (key : String)
    (max_attempts : Nat) (window_minutes : Int) (now : Int) : RLCheck :=
  match redis with
  | none =>
      { allowed := true, remaining := max_attempts, redis := none, logs := [.warning] }
  | some r =>
      if r.failing then
        { allowed := true, remaining := max_attempts, redis := some r, logs := [.error] }
      else
        let ws : Int := now - window_minutes * 60
        let pruned := (r.getKey key).filter (fun t => decide (t < 0) || decide (ws < t))
        let r2 := r.setKey key pruned
        if max_attempts ≤ pruned.length then
          { allowed := false, remaining := 0, redis := some r2, logs := [] }
        else
          { allowed := true, remaining := max_attempts - pruned.length,
            redis := some r2, logs := [] }

/-- `RedisRateLimiter.record_attempt` (rate_limiter.py lines 100-122): `zadd`
with member `str(now.timestamp())`, hence idempotent at a fixed timestamp. -/
def record_attempt (redis : Option RedisStore) (key : String) (now : Int) :
    Option RedisStore :=
  match redis with
  | none => none
  | some r =>
      if r.failing then some r
      else
        let cur := r.getKey key
        if cur.contains now then some r
        else some (r.setKey key (cur ++ [now]))

/-- `RedisRateLimiter.reset` (rate_limiter.py lines 124-139): `DEL` the key. -/
def rl_reset (redis : Option RedisStore) (key : String) : Option RedisStore :=
  match redis with
  | none => none
  | some r => if r.failing then some r else some (r.delKey key)

/-! ## JWT tokens (core/security.py)

A token is either a claim set signed with the server secret, or any other
string (wrong signature, wrong key, garbage).  `jwt.encode` is deterministic,
so two signed tokens are equal exactly when their claim sets are equal.
`python-jose` rejects a token as expired when `exp < now` (zero leeway). -/

structure Claims where
  sub : Option String := none
  username : Option String := none
  role : Option String := none
  typ : Option String := none
  exp : Int := 0
  iat : Int := 0
  iss : String := ""
deriving DecidableEq, Repr

inductive JwtToken
  | signed (c : Claims)
  | malformed (s : String)
deriving DecidableEq, Repr

/-- `create_access_token` (security.py lines 86-121): stamp `exp`, `iat`,
`iss` onto the payload and sign it. -/
def create_access_token (data : Claims) (expires_delta : Option Int) (now : Int) :
    JwtToken :=
  let expire : Int :=
    match expires_delta with
    | some d => now + d
    | none => now + settings.JWT_EXPIRATION_HOURS * 3600
  .signed { data with exp := expire, iat := now, iss := settings.APP_NAME }

/-- `create_refresh_token` (security.py lines 124-136): payload
`sub, type="refresh"` with a 30-day expiry. -/
def create_refresh_token (user_id : String) (now : Int) : JwtToken :=
  create_access_token { sub := some user_id, typ := some "refresh" }
    (some (settings.REFRESH_TOKEN_EXPIRY_DAYS * 86400)) now

/-- `verify_token` (security.py lines 139-157): decode with signature and
expiry check; any `JWTError` collapses to `None`. -/
def verify_token (token : JwtToken) (now : Int) : Option Claims :=
  match token with
  | .signed c => if c.exp < now then none else some c
  | .malformed _ => none

/-- `verify_password` (security.py lines 36-50): the underlying
`pwd_context.verify` call is a parameter (bcrypt lives outside the repo);
its outcome is either a Boolean or a raised exception, and any exception is
mapped to `False`. -/
def verify_password (rawVerify : String → String → Except Unit Bool)
    (plain hashed : String) : Bool :=
  match rawVerify plain hashed with
  | .ok b => b
  | .error _ => false

/-! ## String helpers

Python string primitives used by the embedded code, implemented by
structural recursion on character lists so that the kernel can evaluate
them on concrete inputs. -/

/-- Whether `pat` occurs as a contiguous run of `l`. -/
def charInfix (pat : List Char) : List Char → Bool
  | [] => pat.isEmpty
  | c :: rest => pat.isPrefixOf (c :: rest) || charInfix pat rest

/-- Python `pattern in text` on strings. -/
def strContains (text pattern : String) : Bool :=
  charInfix pattern.toList text.toList

/-- Python `text.startswith(pattern)`. -/
def strStartsWith (text pattern : String) : Bool :=
  pattern.toList.isPrefixOf text.toList

/-- Strip `pat` from the front of `l`, returning the remainder. -/
def stripPfx : List Char → List Char → Option (List Char)
  | [], l => some l
  | _, [] => none
  | a :: as, b :: bs => if a == b then stripPfx as bs else none

/-- Python `text.split(sep)` for a non-empty separator, on character lists;
`fuel` bounds the recursion (the input length suffices, since every step
consumes at least one character). -/
def splitFuel (sep : List Char) : Nat → List Char → List (List Char)
  | _, [] => [[]]
  | 0, l => [l]
  | fuel + 1, c :: rest =>
      match stripPfx sep (c :: rest) with
      | some rem => [] :: splitFuel sep fuel rem
      | none =>
          match splitFuel sep fuel rest with
          | h :: t => (c :: h) :: t
          | [] => [[c]]

/-- Python `text.split(sep)` (non-empty `sep`). -/
def pySplit (text sep : String) : List String :=
  (splitFuel sep.toList text.toList.length text.toList).map
    (fun l => String.mk l)

/-- Python `text.lower()` (the repository only lowercases ASCII data). -/
def pyLower (s : String) : String := String.mk (s.toList.map Char.toLower)

/-- Python `text.upper()`. -/
def pyUpper (s : String) : String := String.mk (s.toList.map Char.toUpper)

/-- Decimal parse of the surrogate primary keys (the `UUID(...)`
constructor applied to a `str(user.id)` value; `none` models the raised
`ValueError`). -/
def pyParseNat (s : String) : Option Nat :=
  if s.toList.isEmpty then none
  else
    s.toList.foldl
      (fun acc c =>
        acc.bind (fun n => if c.isDigit then some (n * 10 + (c.toNat - 48)) else none))
      (some 0)


/-! ## Data model (User and Session rows)

The ORM model file (app/models/user.py) is not among the provided sources;
the row structures below follow the fields that the in-scope services read
and write, which match §3 of the spec.  Primary keys are `Nat` surrogates
for the UUIDs generated by the database. -/

structure User where
  id : Nat
  username : String
  email : String
  password_hash : String
  full_name : String := ""
  role : String := "examiner"
  is_active : Bool := true
  is_verified : Bool := true
  failed_login_attempts : Nat := 0
  locked_until : Option Int := none
  last_login : Option Int := none
  password_changed_at : Option Int := none
  created_by : Option Nat := none
deriving DecidableEq, Repr

structure UserSession where
  id : Nat
  user_id : Nat
  token : JwtToken
  refresh_token : JwtToken
  expires_at : Int
  refresh_expires_at : Int
  is_revoked : Bool := false
  ip_address : String := ""
  user_agent : Option String := none
  last_activity : Option Int := none
deriving DecidableEq, Repr

/-- Modelled from the spec: `Session.is_valid` is defined in
app/models/user.py, which is absent from the provided sources.  Per §3 a
session is "implicitly invalid once either expiry passes, independent of
explicit revocation", and revoked rows are never valid. -/
def UserSession.is_valid (s : UserSession) (now : Int) : Bool :=
  !s.is_revoked && decide (now < s.expires_at) && decide (now < s.refresh_expires_at)

/-- The relational store: the users and sessions tables. -/
structure Db where
  users : List User := []
  sessions : List UserSession := []
deriving DecidableEq, Repr

/-- `db.commit()` of a mutated ORM `User` object: rewrite the row with the
matching primary key. -/
def updateUserRow (users : List User) (u : User) : List User :=
  users.map (fun x => if x.id == u.id then u else x)

/-- `db.commit()` of a mutated ORM `Session` object: rewrite the row with
the matching primary key. -/
def updateSessionRow (sessions : List UserSession) (s : UserSession) :
    List UserSession :=
  sessions.map (fun x => if x.id == s.id then s else x)

/-! ## AuthService (services/auth_service.py) -/

/-- The typed failures `authenticate_user` raises (HTTPException status and
detail in the source): 429 too many attempts, 401 incorrect username or
password, 403 account locked until the carried time, 403 account disabled. -/
inductive AuthError
  | rateLimited
  | invalidCredentials
  | accountLocked (locked_until : Int)
  | forbidden
deriving DecidableEq, Repr

/-- Result of `AuthService.authenticate_user`: the raised error or the
returned `(User, Session)` pair, plus the database and rate-limiter state
after the call. -/
structure AuthResult where
  outcome : Except AuthError (User × UserSession)
  db : Db
  redis : Option RedisStore
deriving Repr

/-- Surrogate for the database-generated primary key of a freshly inserted
session row. -/
def nextSessionId (db : Db) : Nat := db.sessions.length

/-- Continuation of `authenticate_user` after the lock check
(auth_service.py lines 141-199): verify the password, on failure increment
`failed_login_attempts` and lock at 5; then check `is_active`; on success
reset the counters, reset the limiter, issue tokens and insert a session. -/
def authenticate_checked (rawVerify : String → String → Except Unit Bool)
    (db : Db) (redis : Option RedisStore) (username password : String)
    (ip_address : String) (user_agent : Option String) (now : Int)
    (user : User) : AuthResult :=
  if !verify_password rawVerify password user.password_hash then
    let attempts := user.failed_login_attempts + 1
    let user2 : User :=
      { user with
        failed_login_attempts := attempts
        locked_until := if 5 ≤ attempts then some (now + 30 * 60) else user.locked_until }
    { outcome := .error .invalidCredentials
      db := { db with users := updateUserRow db.users user2 }
      redis := record_attempt redis username now }
  else if !user.is_active then
    { outcome := .error .forbidden, db := db, redis := redis }
  else
    let user2 : User :=
      { user with failed_login_attempts := 0, locked_until := none, last_login := some now }
    let access := create_access_token
      { sub := some (toString user.id), username := some user.username,
        role := some user.role } none now
    let refreshTok := create_refresh_token (toString user.id) now
    let sess : UserSession :=
      { id := nextSessionId db
        user_id := user.id
        token := access
        refresh_token := refreshTok
        expires_at := now + settings.JWT_EXPIRATION_HOURS * 3600
        refresh_expires_at := now + settings.REFRESH_TOKEN_EXPIRY_DAYS * 86400
        ip_address := ip_address
        user_agent := user_agent }
    { outcome := .ok (user2, sess)
      db := { db with users := updateUserRow db.users user2,
                      sessions := db.sessions ++ [sess] }
      redis := rl_reset redis username }

/-- `AuthService.authenticate_user` (auth_service.py lines 91-199): rate
check first (key = the raw username), then user lookup by lowercased
username, then the lock check, then `authenticate_checked`. -/
def authenticate_user (rawVerify : String → String → Except Unit Bool)
    (db : Db) (redis : Option RedisStore) (username password : String)
    (ip_address : String) (user_agent : Option String) (now : Int) : AuthResult :=
  let chk := check_rate_limit redis username settings.LOGIN_RATE_LIMIT_PER_15MIN 15 now
  if !chk.allowed then
    { outcome := .error .rateLimited, db := db, redis := chk.redis }
  else
    match db.users.find? (fun u => u.username == pyLower username) with
    | none =>
        { outcome := .error .invalidCredentials, db := db
          redis := record_attempt chk.redis username now }
    | some user =>
        match user.locked_until with
        | some lu =>
            if now < lu then
              { outcome := .error (.accountLocked lu), db := db, redis := chk.redis }
            else
              authenticate_checked rawVerify db chk.redis username password
                ip_address user_agent now user
        | none =>
            authenticate_checked rawVerify db chk.redis username password
              ip_address user_agent now user

/-- Exceptions the Python runtime raises out of the embedded endpoints. -/
inductive PyExc
  | zeroDivisionError
  | valueError
deriving DecidableEq, Repr

/-- Result of `AuthService.verify_session`: the returned user (or `None`)
and the database after the `last_activity` touch. -/
structure VerifyResult where
  user : Option User
  db : Db
deriving Repr

/-- `AuthService.verify_session` (auth_service.py lines 201-242): JWT check,
then a session lookup filtered on `is_revoked == False`, then the row's own
`is_valid`, then the user's `is_active`; any failure yields `None`.  The
`UUID(user_id)` call raises `ValueError` on a malformed subject claim. -/
def verify_session (db : Db) (token : JwtToken) (now : Int) :
    Except PyExc VerifyResult :=
  match verify_token token now with
  | none => .ok { user := none, db := db }
  | some payload =>
      match payload.sub with
      | none => .ok { user := none, db := db }
      | some uid =>
          match db.sessions.find? (fun s => s.token == token && !s.is_revoked) with
          | none => .ok { user := none, db := db }
          | some s =>
              if !s.is_valid now then .ok { user := none, db := db }
              else
                match pyParseNat uid with
                | none => .error .valueError
                | some uidNat =>
                    match db.users.find? (fun u => u.id == uidNat) with
                    | none => .ok { user := none, db := db }
                    | some user =>
                        if !user.is_active then .ok { user := none, db := db }
                        else
                          let s2 := { s with last_activity := some now }
                          .ok { user := some user
                                db := { db with sessions := updateSessionRow db.sessions s2 } }

/-- `AuthService.logout` (auth_service.py lines 318-338): find the session by
access-token value (revoked or not) and mark it revoked; `False` when no row
matches. -/
def logout (db : Db) (token : JwtToken) : Bool × Db :=
  match db.sessions.find? (fun s => s.token == token) with
  | some s =>
      (true, { db with sessions := updateSessionRow db.sessions { s with is_revoked := true } })
  | none => (false, db)

/-- Typed failures of `AuthService.refresh_access_token`: the two 401
"invalid" branches carry the HTTPException detail string; `tokenExpired` is
the 401 on a stale `refresh_expires_at`; `forbidden` the 403 on a missing or
disabled user; `pyError` the unhandled exception `UUID(user_id)` raises on a
malformed subject claim. -/
inductive RefreshError
  | invalidToken (detail : String)
  | tokenExpired
  | forbidden
  | pyError
deriving DecidableEq, Repr

/-- Result of `AuthService.refresh_access_token`. -/
structure RefreshResult where
  outcome : Except RefreshError (JwtToken × JwtToken)
  db : Db
deriving Repr

/-- `AuthService.refresh_access_token` (auth_service.py lines 244-316):
verify the JWT and its `type` claim, look the session up by refresh-token
value among non-revoked rows, check `refresh_expires_at`, re-check the user,
then mint a fresh pair and overwrite the session row in place. -/
def refresh_access_token (db : Db) (refresh_token : JwtToken) (now : Int) :
    RefreshResult :=
  match verify_token refresh_token now with
  | none => { outcome := .error (.invalidToken "Invalid refresh token"), db := db }
  | some payload =>
      if payload.typ ≠ some "refresh" then
        { outcome := .error (.invalidToken "Invalid refresh token"), db := db }
      else
        match db.sessions.find? (fun s => s.refresh_token == refresh_token && !s.is_revoked) with
        | none =>
            { outcome := .error (.invalidToken "Refresh token not found or revoked"), db := db }
        | some s =>
            if s.refresh_expires_at < now then
              { outcome := .error .tokenExpired, db := db }
            else
              match payload.sub.bind pyParseNat with
              | none => { outcome := .error .pyError, db := db }
              | some uid =>
                  match db.users.find? (fun u => u.id == uid) with
                  | none => { outcome := .error .forbidden, db := db }
                  | some user =>
                      if !user.is_active then
                        { outcome := .error .forbidden, db := db }
                      else
                        let new_access := create_access_token
                          { sub := some (toString user.id), username := some user.username,
                            role := some user.role } none now
                        let new_refresh := create_refresh_token (toString user.id) now
                        let s2 : UserSession :=
                          { s with
                            token := new_access
                            refresh_token := new_refresh
                            expires_at := now + settings.JWT_EXPIRATION_HOURS * 3600
                            refresh_expires_at := now + settings.REFRESH_TOKEN_EXPIRY_DAYS * 86400
                            last_activity := some now }
                        { outcome := .ok (new_access, new_refresh)
                          db := { db with sessions := updateSessionRow db.sessions s2 } }

/-- Input schema of `AuthService.create_user`. -/
structure UserCreate where
  username : String
  email : String
  password : String
  full_name : String := ""
  role : String := "examiner"
deriving DecidableEq, Repr

/-- Failures of `AuthService.create_user`: the 400 duplicate rejections
("Username already registered" / "Email already registered"), which §7 of
the spec files under `Conflict`. -/
inductive CreateError
  | conflict (detail : String)
deriving DecidableEq, Repr

/-- Result of `AuthService.create_user`. -/
structure CreateResult where
  outcome : Except CreateError User
  db : Db
deriving Repr

/-- `AuthService.create_user` (auth_service.py lines 32-89): reject when the
lowercased username or the email already exists, else insert the row.  The
`except IntegrityError` arm only fires when a concurrent insert races past
these two pre-checks, which cannot happen in this sequential embedding. -/
def create_user (hashPassword : String → String) (db : Db) (ud : UserCreate)
    (created_by_id : Option Nat) : CreateResult :=
  match db.users.find? (fun u => u.username == pyLower ud.username) with
  | some _ => { outcome := .error (.conflict "Username already registered"), db := db }
  | none =>
      match db.users.find? (fun u => u.email == ud.email) with
      | some _ => { outcome := .error (.conflict "Email already registered"), db := db }
      | none =>
          let u : User :=
            { id := db.users.length
              username := pyLower ud.username
              email := ud.email
              password_hash := hashPassword ud.password
              full_name := ud.full_name
              role := ud.role
              created_by := created_by_id
              is_active := true
              is_verified := true }
          { outcome := .ok u, db := { db with users := db.users ++ [u] } }

/-- `AuthService.list_users` (auth_service.py lines 432-437):
`offset(skip).limit(limit)` plus a total count. -/
def list_users (db : Db) (skip limit : Nat) : List User × Nat :=
  ((db.users.drop skip).take limit, db.users.length)

/-- Python `//`: floor division, raising `ZeroDivisionError` on a zero
divisor. -/
def pyFloorDiv (a b : Int) : Except PyExc Int :=
  if b = 0 then .error .zeroDivisionError else .ok (Int.fdiv a b)

/-- The endpoint's `UserListResponse` payload. -/
structure UserListResponse where
  users : List User
  total : Nat
  page : Int
  page_size : Int
deriving DecidableEq, Repr

/-- The admin `GET /auth/users` handler (api/auth.py lines 222-245): the
query parameters are plain `int`s with defaults 0 and 100 and no declared
bounds; the page number is computed as `(skip // limit) + 1`. -/
def list_users_endpoint (db : Db) (skip limit : Int) : Except PyExc UserListResponse :=
  let res := list_users db skip.toNat limit.toNat
  match pyFloorDiv skip limit with
  | .error e => .error e
  | .ok q =>
      .ok { users := res.1, total := res.2, page := q + 1, page_size := limit }

/-! ## Audit middleware (middleware/audit.py, AuditLogMiddleware)

The inbound request carries any bearer token already parsed out of the
`Authorization` header; the Python UUID parser used for resource-id
extraction is a parameter.  `_log_to_database` swallows its own write
failures, so the model exposes the list of audit entries whose write the
middleware attempts. -/

/-- audit.py line 23. -/
def EXCLUDED_PATHS : List String :=
  ["/health", "/health/live", "/health/ready", "/metrics", "/docs", "/redoc",
   "/openapi.json"]

/-- audit.py line 26: fields that are supposed to be masked in logs. -/
def SENSITIVE_FIELDS : List String :=
  ["password", "token", "secret", "api_key", "refresh_token"]

structure HttpRequest where
  method : String
  path : String
  query_params : List (String × String) := []
  bearer_token : Option JwtToken := none
  client_host : Option String := none
  user_agent : Option String := none
deriving Repr

/-- `_determine_action`, authentication branch (audit.py lines 207-225): the
`if/elif` chain returns nothing for a method the inner `if` does not cover,
falling through to the later blocks. -/
def auth_action (method pl : String) : Option String :=
  if strContains pl "/auth/login" then some "AUTH_LOGIN"
  else if strContains pl "/auth/logout" then some "AUTH_LOGOUT"
  else if strContains pl "/auth/refresh" then some "AUTH_REFRESH_TOKEN"
  else if strContains pl "/auth/change-password" then some "AUTH_PASSWORD_CHANGE"
  else if strContains pl "/auth/users" then
    if method == "POST" then some "USER_CREATE"
    else if method == "GET" then some "USER_LIST"
    else none
  else if strContains pl "/auth/me" then
    if method == "GET" then some "USER_VIEW_PROFILE"
    else if method == "PUT" then some "USER_UPDATE_PROFILE"
    else none
  else none

/-- `_determine_action`, case branch (audit.py lines 228-236):
`CASE_VIEW` when the text after the last `"/cases"` occurrence contains a
slash, else `CASE_LIST`. -/
def case_action (method pl : String) : Option String :=
  if strContains pl "/cases" then
    if method == "POST" then some "CASE_CREATE"
    else if method == "GET" then
      some (if strContains (((pySplit pl "/cases").getLast?).getD "") "/"
            then "CASE_VIEW" else "CASE_LIST")
    else if method == "PUT" then some "CASE_UPDATE"
    else if method == "DELETE" then some "CASE_DELETE"
    else none
  else none

/-- `_determine_action`, evidence branch (audit.py lines 239-245). -/
def evidence_action (method pl : String) : Option String :=
  if strContains pl "/evidence" || strContains pl "/upload" then
    if method == "POST" then some "EVIDENCE_UPLOAD"
    else if method == "GET" then some "EVIDENCE_VIEW"
    else if method == "DELETE" then some "EVIDENCE_DELETE"
    else none
  else none

/-- `_determine_action`, message branch (audit.py lines 248-252). -/
def message_action (method pl : String) : Option String :=
  if strContains pl "/messages" then
    if method == "GET" then some "MESSAGE_VIEW"
    else if method == "POST" && strContains pl "export" then some "MESSAGE_EXPORT"
    else none
  else none

/-- `_determine_action`, report branch (audit.py lines 255-259). -/
def report_action (method pl : String) : Option String :=
  if strContains pl "/reports" then
    if method == "POST" then some "REPORT_GENERATE"
    else if method == "GET" then some "REPORT_VIEW"
    else none
  else none

/-- `_determine_action`, default (audit.py line 262):
`method_LASTSEGMENT` with `ROOT` for an empty last segment. -/
def default_action (method path : String) : String :=
  let seg := pyUpper (((pySplit path "/").getLast?).getD "")
  if seg == "" then method ++ "_ROOT" else method ++ "_" ++ seg

/-- `AuditLogMiddleware._determine_action` (audit.py lines 202-262). -/
def determine_action (method path : String) : String :=
  let pl := pyLower path
  match auth_action method pl with
  | some a => a
  | none =>
      match case_action method pl with
      | some a => a
      | none =>
          match evidence_action method pl with
          | some a => a
          | none =>
              match message_action method pl with
              | some a => a
              | none =>
                  match report_action method pl with
                  | some a => a
                  | none => default_action method path

/-- `AuditLogMiddleware._determine_action_category` (audit.py lines 264-284). -/
def determine_action_category (path : String) : String :=
  let pl := pyLower path
  if strContains pl "/auth" then "authentication"
  else if strContains pl "/cases" then "case_management"
  else if strContains pl "/evidence" || strContains pl "/upload" then "evidence_handling"
  else if strContains pl "/messages" || strContains pl "/chats" then "data_access"
  else if strContains pl "/reports" then "export"
  else if strContains pl "/users" then "administration"
  else if strContains pl "/ai" || strContains pl "/analyze" then "ai_analysis"
  else "other"

/-- `AuditLogMiddleware._determine_resource_type` (audit.py lines 286-299). -/
def determine_resource_type (path : String) : Option String :=
  if strContains path "/cases" then some "case"
  else if strContains path "/messages" then some "message"
  else if strContains path "/evidence" then some "evidence"
  else if strContains path "/users" then some "user"
  else if strContains path "/reports" then some "report"
  else none

/-- `AuditLogMiddleware._extract_resource_id` (audit.py lines 301-313):
the first path segment the UUID parser accepts. -/
def extract_resource_id (isUuid : String → Bool) (path : String) : Option String :=
  (pySplit path "/").find? isUuid

/-- The inline case-id extraction in `dispatch` (audit.py lines 72-83):
the segment right after the first `cases` segment, when it parses as a UUID. -/
def extract_case_id (isUuid : String → Bool) (path : String) : Option String :=
  if strContains path "cases" then
    let parts := pySplit path "/"
    match parts.indexOf? "cases" with
    | some i =>
        match parts.get? (i + 1) with
        | some p => if isUuid p then some p else none
        | none => none
    | none => none
  else none

/-- The `details` dict built in `dispatch` (audit.py lines 112-118): raw
query parameters are copied in verbatim (`dict(request.query_params)` or
`None` when empty); no masking is applied to them. -/
structure AuditDetails where
  transaction_id : String
  path : String
  method : String
  query_params : Option (List (String × String))
  duration_ms : Nat
deriving DecidableEq, Repr

/-- One row of the audit_log table as `_log_to_database` writes it. -/
structure AuditRecord where
  action : String
  action_category : String
  user_id : Option String
  username : Option String
  user_role : Option String
  ip_address : String
  user_agent : Option String
  request_method : String
  request_path : String
  case_id : Option String
  resource_type : Option String
  resource_id : Option String
  status : String
  status_code : Nat
  error_message : Option String
  details : AuditDetails
  transaction_id : String
deriving DecidableEq, Repr

/-- Result of `AuditLogMiddleware.dispatch`: the response passed through (or
the re-raised downstream exception) and the audit entries whose write the
middleware attempted. -/
structure DispatchResult where
  response : Except String Nat
  records : List AuditRecord
deriving Repr

/-- `AuditLogMiddleware.dispatch` (audit.py lines 43-144): skip excluded
path prefixes; extract the actor from any bearer token (best effort);
run the downstream handler, mapping an unhandled exception to outcome
`error` / status 500 and re-raising it after the `finally` block writes
the single audit entry. -/
def dispatch (isUuid : String → Bool) (req : HttpRequest)
    (downstream : Except String Nat) (txid : String) (duration_ms : Nat)
    (now : Int) : DispatchResult :=
  if EXCLUDED_PATHS.any (fun p => strStartsWith req.path p) then
    { response := downstream, records := [] }
  else
    let payload := req.bearer_token.bind (fun t => verify_token t now)
    let user_id := payload.bind (fun p => p.sub)
    let username := payload.bind (fun p => p.username)
    let user_role := payload.bind (fun p => p.role)
    let client_ip := req.client_host.getD "unknown"
    let case_id := extract_case_id isUuid req.path
    let outcome : Nat × String × Option String :=
      match downstream with
      | .ok sc => (sc, if 200 ≤ sc && sc < 400 then "success" else "failure", none)
      | .error e => (500, "error", some e)
    let details : AuditDetails :=
      { transaction_id := txid
        path := req.path
        method := req.method
        query_params := if req.query_params.isEmpty then none else some req.query_params
        duration_ms := duration_ms }
    let entry : AuditRecord :=
      { action := determine_action req.method req.path
        action_category := determine_action_category req.path
        user_id := user_id
        username := username
        user_role := user_role
        ip_address := client_ip
        user_agent := req.user_agent
        request_method := req.method
        request_path := req.path
        case_id := case_id
        resource_type := determine_resource_type req.path
        resource_id := extract_resource_id isUuid req.path
        status := outcome.2.1
        status_code := outcome.1
        error_message := outcome.2.2
        details := details
        transaction_id := txid }
    { response := downstream, records := [entry] }

/-! ## Shared helpers for the theorems -/

/-- Whether an `authenticate_user` outcome is the `AccountLocked` failure. -/
def isAccountLockedOutcome : Except AuthError (User × UserSession) → Bool
  | .error (.accountLocked _) => true
  | _ => false

/-- Whether a `refresh_access_token` outcome is one of the 401 `InvalidToken`
failures. -/
def isInvalidTokenErr : Except RefreshError (JwtToken × JwtToken) → Bool
  | .error (.invalidToken _) => true
  | _ => false

/-- Every row of `updateSessionRow l s2` is either the rewritten row `s2` or
an untouched row of `l` whose primary key differs from `s2.id`. -/
theorem mem_updateSessionRow {l : List UserSession} {s2 x : UserSession}
    (hx : x ∈ updateSessionRow l s2) : x = s2 ∨ (x ∈ l ∧ x.id ≠ s2.id) := by
  unfold updateSessionRow at hx
  rcases List.mem_map.mp hx with ⟨y, hy, he⟩
  by_cases hid : y.id == s2.id
  · left; rw [if_pos hid] at he; exact he.symm
  · right
    rw [if_neg hid] at he
    subst he
    exact ⟨hy, by simpa using hid⟩

/-! ## The claims -/

/-- C5: for every key, limit and window, when the rate-limit backing store is
unreachable — no Redis client (`redis = none`) or a raising backend
(`failing = true`) — `check_rate_limit` fails open: it returns
`allowed = true` with the full allowance remaining, and emits a log record
(at warning level for the missing client, error level for the raising
backend) instead of rejecting the attempt. -/
theorem c5_rate_limiter_fails_open (redis : Option RedisStore) (key : String)
    (max_attempts : Nat) (window_minutes now : Int)
    (h : redis = none ∨ ∃ r, redis = some r ∧ r.failing = true) :
    (check_rate_limit redis key max_attempts window_minutes now).allowed = true ∧
    (check_rate_limit redis key max_attempts window_minutes now).remaining = max_attempts ∧
    (check_rate_limit redis key max_attempts window_minutes now).logs ≠ [] := by
  rcases h with h | ⟨r, h, hf⟩
  · subst h; simp [check_rate_limit]
  · subst h; simp [check_rate_limit, hf]

/-- Witness for C5 at a concrete input: no Redis client, key `alice`. -/
theorem c5_rate_limiter_fails_open_witness :
    (check_rate_limit none "alice" 5 15 1000).allowed = true ∧
    (check_rate_limit none "alice" 5 15 1000).remaining = 5 ∧
    (check_rate_limit none "alice" 5 15 1000).logs ≠ [] :=
  c5_rate_limiter_fails_open none "alice" 5 15 1000 (Or.inl rfl)

/-- C10: the admin `list_users` endpoint divides by the raw `limit` query
parameter: `limit = 0` raises an unhandled `ZeroDivisionError` while
computing `(skip // limit) + 1`, and the documented bound (max 100) is not
enforced — `limit = 1000` is accepted and echoed back as `page_size`. -/
theorem c10_list_users_zero_limit_division (db : Db) (skip : Int) :
    list_users_endpoint db skip 0 = .error .zeroDivisionError ∧
    list_users_endpoint db 0 1000 =
      .ok { users := db.users.take 1000, total := db.users.length,
            page := 1, page_size := 1000 } := by
  constructor
  · simp [list_users_endpoint, pyFloorDiv, list_users]
  · simp [list_users_endpoint, pyFloorDiv, list_users]

/-- C2: for every inbound request whose path does not start with an excluded
prefix, `dispatch` attempts exactly one audit write, passes the downstream
result through unchanged, and when the downstream handler raised an
unhandled exception the single record carries outcome `error`, status code
500, and the exception text. -/
theorem c2_audit_exactly_one_record (isUuid : String → Bool) (req : HttpRequest)
    (downstream : Except String Nat) (txid : String) (duration_ms : Nat) (now : Int)
    (h : EXCLUDED_PATHS.any (fun p => strStartsWith req.path p) = false) :
    (dispatch isUuid req downstream txid duration_ms now).records.length = 1 ∧
    (dispatch isUuid req downstream txid duration_ms now).response = downstream ∧
    (∀ e, downstream = .error e →
      ∀ a ∈ (dispatch isUuid req downstream txid duration_ms now).records,
        a.status = "error" ∧ a.status_code = 500 ∧ a.error_message = some e) := by
  refine ⟨?_, ?_, ?_⟩
  · simp [dispatch, h]
  · simp [dispatch, h]
  · intro e he a ha
    subst he
    simp [dispatch, h] at ha
    subst ha
    simp

/-- Witness for C2 at a concrete input: a `GET /api/v1/cases` request whose
handler raised. -/
theorem c2_audit_exactly_one_record_witness :
    (dispatch (fun _ => false) { method := "GET", path := "/api/v1/cases" }
        (.error "boom") "tx1" 5 0).records.length = 1 ∧
    (dispatch (fun _ => false) { method := "GET", path := "/api/v1/cases" }
        (.error "boom") "tx1" 5 0).response = .error "boom" ∧
    (∀ e, (Except.error "boom" : Except String Nat) = .error e →
      ∀ a ∈ (dispatch (fun _ => false) { method := "GET", path := "/api/v1/cases" }
          (.error "boom") "tx1" 5 0).records,
        a.status = "error" ∧ a.status_code = 500 ∧ a.error_message = some e) :=
  c2_audit_exactly_one_record (fun _ => false)
    { method := "GET", path := "/api/v1/cases" } (.error "boom") "tx1" 5 0 (by decide)

/-- The C3 failing input: a login request carrying a secret in the query
string (`POST /api/v1/auth/login?password=hunter2`). -/
def c3_request : HttpRequest :=
  { method := "POST", path := "/api/v1/auth/login",
    query_params := [("password", "hunter2")] }

/-- C3: `dispatch` copies the raw query parameters verbatim into the
persisted `details` payload — `SENSITIVE_FIELDS` lists `password` but is
never applied — so the secret value `hunter2` of the `password` query
parameter appears in the audit record, contradicting the middleware's own
masking comment and constant as well as the spec. -/
theorem c3_sensitive_query_params_leak :
    SENSITIVE_FIELDS.contains "password" = true ∧
    (dispatch (fun _ => false) c3_request (.ok 401) "tx1" 5 0).records.map
      (fun a => a.details.query_params) = [some [("password", "hunter2")]] :=
  ⟨by decide, by decide⟩

/-! ### C1: the lockout protocol -/

/-- A concrete stand-in for the external bcrypt verifier: the stored hash of
`p` is `hashed:p`. -/
def demo_verify : String → String → Except Unit Bool :=
  fun p h => .ok (h == "hashed:" ++ p)

/-- A fresh user whose correct password is `GoodPass1`. -/
def demo_alice : User :=
  { id := 1, username := "alice", email := "alice@example.com",
    password_hash := "hashed:GoodPass1" }

/-- One failed login attempt at time `t`, threading database and limiter
state. -/
def c1_step (st : Db × Option RedisStore) (t : Int) : Db × Option RedisStore :=
  let r := authenticate_user demo_verify st.1 st.2 "alice" "BadPass" "1.2.3.4" none t
  (r.db, r.redis)

/-- The state after five consecutive failed attempts (wrong password) at
times 0, 60, 120, 180, 240, starting from a fresh user and an empty, healthy
Redis store. -/
def c1_state5 : Db × Option RedisStore :=
  [(0 : Int), 60, 120, 180, 240].foldl c1_step ({ users := [demo_alice] }, some {})

/-- The sixth call, 60 seconds after the fifth failure, with the CORRECT
password. -/
def c1_sixth : AuthResult :=
  authenticate_user demo_verify c1_state5.1 c1_state5.2 "alice" "GoodPass1" "1.2.3.4" none 300

/-- C1 counterexample: after exactly 5 consecutive failed attempts the
account is indeed locked (until 2040 = 240 + 30min, and 300 < 2040 so the
lock is in force), but the 6th `authenticate_user` call with the correct
password fails with `RateLimited`, not `AccountLocked`: the limiter check
runs before the lock check and the 5 recorded attempts exhaust the
5-per-15-minute allowance. -/
theorem c1_sixth_attempt_counterexample :
    c1_state5.1.users.map (fun u => (u.failed_login_attempts, u.locked_until)) =
      [(5, some 2040)] ∧
    c1_sixth.outcome = .error .rateLimited ∧
    isAccountLockedOutcome c1_sixth.outcome = false :=
  ⟨rfl, rfl, rfl⟩

/-- C1 as amended: (a) a 5th consecutive failed attempt locks the account
for 30 minutes and fails with `InvalidCredentials`; (b) a call that the rate
limiter rejects (as the 6th within the window is, once the 5 failures are
recorded) fails with `RateLimited` before the lock or the password is
consulted; (c) when the rate-limit store is unavailable (fail open), a call
against a locked account fails with `AccountLocked` — not
`InvalidCredentials` — even with the correct password. -/
theorem c1_lockout_amended :
    (∀ rawV db redis uname pw ip ua now u,
      (check_rate_limit redis uname settings.LOGIN_RATE_LIMIT_PER_15MIN 15 now).allowed = true →
      db.users.find? (fun x => x.username == pyLower uname) = some u →
      u.locked_until = none →
      u.failed_login_attempts = 4 →
      verify_password rawV pw u.password_hash = false →
      (authenticate_user rawV db redis uname pw ip ua now).outcome =
        .error .invalidCredentials ∧
      (authenticate_user rawV db redis uname pw ip ua now).db.users =
        updateUserRow db.users
          { u with failed_login_attempts := 5, locked_until := some (now + 30 * 60) }) ∧
    (∀ rawV db redis uname pw ip ua now,
      (check_rate_limit redis uname settings.LOGIN_RATE_LIMIT_PER_15MIN 15 now).allowed = false →
      (authenticate_user rawV db redis uname pw ip ua now).outcome = .error .rateLimited) ∧
    (∀ rawV db uname pw ip ua now u lu,
      db.users.find? (fun x => x.username == pyLower uname) = some u →
      u.locked_until = some lu →
      now < lu →
      (authenticate_user rawV db none uname pw ip ua now).outcome =
        .error (.accountLocked lu) ∧
      (authenticate_user rawV db none uname pw ip ua now).outcome ≠
        .error .invalidCredentials) := by
  refine ⟨?_, ?_, ?_⟩
  · intro rawV db redis uname pw ip ua now u hchk hfind hlock h4 hverify
    simp only [authenticate_user, hchk, Bool.not_true, if_false, hfind, hlock,
      authenticate_checked, hverify, Bool.not_false, if_true, h4]
    simp
  · intro rawV db redis uname pw ip ua now hchk
    simp [authenticate_user, hchk]
  · intro rawV db uname pw ip ua now u lu hfind hlock hnow
    simp [authenticate_user, check_rate_limit, hfind, hlock, hnow]

/-- Witness for C1 (amended) at concrete inputs: part (a) at the 5th failed
attempt for a user with 4 prior failures, part (b) with 5 recorded attempts
in the window, part (c) with a locked account, the correct password and no
Redis client. -/
theorem c1_lockout_amended_witness :
    ((authenticate_user demo_verify
        { users := [{ demo_alice with failed_login_attempts := 4 }] } (some {})
        "alice" "BadPass" "1.2.3.4" none 240).outcome =
      .error .invalidCredentials ∧
     (authenticate_user demo_verify
        { users := [{ demo_alice with failed_login_attempts := 4 }] } (some {})
        "alice" "BadPass" "1.2.3.4" none 240).db.users =
      updateUserRow [{ demo_alice with failed_login_attempts := 4 }]
        { { demo_alice with failed_login_attempts := 4 } with
          failed_login_attempts := 5, locked_until := some (240 + 30 * 60) }) ∧
    ((authenticate_user demo_verify { users := [demo_alice] }
        (some { entries := [("alice", [0, 60, 120, 180, 240])] })
        "alice" "GoodPass1" "1.2.3.4" none 300).outcome = .error .rateLimited) ∧
    ((authenticate_user demo_verify
        { users := [{ demo_alice with locked_until := some 2040 }] } none
        "alice" "GoodPass1" "1.2.3.4" none 300).outcome =
      .error (.accountLocked 2040) ∧
     (authenticate_user demo_verify
        { users := [{ demo_alice with locked_until := some 2040 }] } none
        "alice" "GoodPass1" "1.2.3.4" none 300).outcome ≠
      .error .invalidCredentials) :=
  ⟨c1_lockout_amended.1 demo_verify _ _ "alice" "BadPass" "1.2.3.4" none 240
      { demo_alice with failed_login_attempts := 4 }
      (by decide) (by decide) rfl rfl (by decide),
   c1_lockout_amended.2.1 demo_verify _ _ "alice" "GoodPass1" "1.2.3.4" none 300
      (by decide),
   c1_lockout_amended.2.2 demo_verify _ "alice" "GoodPass1" "1.2.3.4" none 300
      { demo_alice with locked_until := some 2040 } 2040
      (by decide) rfl (by decide)⟩

/-! ### C7 and C9: the password-verification path -/

/-- C7: whenever the password verifies (and the limiter allowed the call,
the account was not actively locked, and the user is active), the returned
and persisted user row has `failed_login_attempts = 0` and `locked_until`
cleared — regardless of the prior counter value and even when a stale,
already-expired lock was still stored. -/
theorem c7_success_resets_counters (rawV : String → String → Except Unit Bool)
    (db : Db) (redis : Option RedisStore) (uname pw ip : String)
    (ua : Option String) (now : Int) (u : User)
    (hchk : (check_rate_limit redis uname settings.LOGIN_RATE_LIMIT_PER_15MIN 15 now).allowed = true)
    (hfind : db.users.find? (fun x => x.username == pyLower uname) = some u)
    (hlock : u.locked_until = none ∨ ∃ lu, u.locked_until = some lu ∧ lu ≤ now)
    (hverify : verify_password rawV pw u.password_hash = true)
    (hactive : u.is_active = true) :
    (∃ sess, (authenticate_user rawV db redis uname pw ip ua now).outcome =
      .ok ({ u with
             failed_login_attempts := 0, locked_until := none,
             last_login := some now }, sess)) ∧
    (authenticate_user rawV db redis uname pw ip ua now).db.users =
      updateUserRow db.users
        { u with
          failed_login_attempts := 0, locked_until := none,
          last_login := some now } := by
  rcases hlock with hlock | ⟨lu, hlock, hle⟩
  · simp [authenticate_user, hchk, hfind, hlock, authenticate_checked,
      hverify, hactive]
  · have hnotlt : ¬ now < lu := not_lt.mpr hle
    simp [authenticate_user, hchk, hfind, hlock, hnotlt, authenticate_checked,
      hverify, hactive]

/-- Witness for C7 at a concrete input: a user with 4 prior failures and a
stale expired lock logging in with the correct password. -/
theorem c7_success_resets_counters_witness :
    (∃ sess, (authenticate_user demo_verify
        { users := [{ demo_alice with failed_login_attempts := 4, locked_until := some 100 }] }
        (some {})
        "alice" "GoodPass1" "1.2.3.4" none 5000).outcome =
      .ok ({ { demo_alice with failed_login_attempts := 4, locked_until := some 100 } with
             failed_login_attempts := 0, locked_until := none, last_login := some 5000 },
           sess)) ∧
    (authenticate_user demo_verify
        { users := [{ demo_alice with failed_login_attempts := 4, locked_until := some 100 }] }
        (some {})
        "alice" "GoodPass1" "1.2.3.4" none 5000).db.users =
      updateUserRow [{ demo_alice with failed_login_attempts := 4, locked_until := some 100 }]
        { { demo_alice with failed_login_attempts := 4, locked_until := some 100 } with
          failed_login_attempts := 0, locked_until := none, last_login := some 5000 } :=
  c7_success_resets_counters demo_verify _ _ "alice" "GoodPass1" "1.2.3.4" none 5000
    { demo_alice with failed_login_attempts := 4, locked_until := some 100 }
    (by decide) (by decide) (Or.inr ⟨100, rfl, by decide⟩) (by decide) rfl

/-- C9: `verify_password` maps any exception of the underlying hash
verifier to `False` (it returns a Boolean and never raises), and
consequently `authenticate_user` treats a stored hash the verifier raises
on exactly as a wrong password: it fails with `InvalidCredentials`. -/
theorem c9_verify_password_total :
    (∀ rawV plain hashed e, rawV plain hashed = .error e →
      verify_password rawV plain hashed = false) ∧
    (∀ rawV db redis uname pw ip ua now u,
      (check_rate_limit redis uname settings.LOGIN_RATE_LIMIT_PER_15MIN 15 now).allowed = true →
      db.users.find? (fun x => x.username == pyLower uname) = some u →
      u.locked_until = none →
      rawV pw u.password_hash = .error () →
      (authenticate_user rawV db redis uname pw ip ua now).outcome =
        .error .invalidCredentials) := by
  constructor
  · intro rawV plain hashed e h
    simp [verify_password, h]
  · intro rawV db redis uname pw ip ua now u hchk hfind hlock herr
    have hv : verify_password rawV pw u.password_hash = false := by
      simp [verify_password, herr]
    simp [authenticate_user, hchk, hfind, hlock, authenticate_checked, hv]

/-- Witness for C9 at a concrete input: a verifier that raises on every
call (e.g. a corrupt, non-bcrypt stored hash). -/
theorem c9_verify_password_total_witness :
    verify_password (fun _ _ => .error ()) "pw" "not-a-bcrypt-hash" = false ∧
    (authenticate_user (fun _ _ => .error ()) { users := [demo_alice] } (some {})
      "alice" "GoodPass1" "1.2.3.4" none 0).outcome = .error .invalidCredentials :=
  ⟨c9_verify_password_total.1 (fun _ _ => .error ()) "pw" "not-a-bcrypt-hash" () rfl,
   c9_verify_password_total.2 (fun _ _ => .error ()) _ _ "alice" "GoodPass1"
     "1.2.3.4" none 0 demo_alice (by decide) (by decide) rfl rfl⟩

/-! ### C4 and C6: session lookups after revocation / rotation -/

/-- After a session row is rewritten to `s2`, no row matches a refresh token
that only the rewritten row used to hold and that `s2` no longer holds. -/
theorem find?_refresh_updated_none (db : Db) (c : Claims) (s s2 : UserSession)
    (huniq : ∀ x ∈ db.sessions, x.refresh_token = .signed c → x = s)
    (hs2id : s2.id = s.id)
    (hs2tok : s2.refresh_token ≠ .signed c) :
    (updateSessionRow db.sessions s2).find?
      (fun x => x.refresh_token == JwtToken.signed c && !x.is_revoked) = none := by
  rw [List.find?_eq_none]
  intro x hx hpred
  simp only [Bool.and_eq_true] at hpred
  have ht : x.refresh_token = .signed c := eq_of_beq hpred.1
  rcases mem_updateSessionRow hx with rfl | ⟨hxl, hxid⟩
  · exact hs2tok ht
  · exact hxid (by rw [huniq x hxl ht, hs2id])

/-- C4: refresh-token rotation is one-shot.  Under the conditions that make
`refresh_access_token` succeed (valid unexpired refresh JWT of type
`refresh`, a unique matching non-revoked session row that is not stale, an
active owning user) and provided the call happens at a time other than the
token's own issue instant (so the freshly minted token differs from the old
one), the first call returns a new pair, and replaying the same old refresh
token afterwards — at any time — fails with one of the 401 `InvalidToken`
errors: the rotated-out token no longer matches any session row. -/
theorem c4_refresh_rotation_one_shot (db : Db) (c : Claims) (now now2 : Int)
    (s : UserSession) (u : User) (uid : Nat)
    (hexp : ¬ c.exp < now)
    (htyp : c.typ = some "refresh")
    (hfind : db.sessions.find?
      (fun x => x.refresh_token == JwtToken.signed c && !x.is_revoked) = some s)
    (huniq : ∀ x ∈ db.sessions, x.refresh_token = .signed c → x = s)
    (hsexp : ¬ s.refresh_expires_at < now)
    (hsub : c.sub.bind pyParseNat = some uid)
    (huser : db.users.find? (fun x => x.id == uid) = some u)
    (hactive : u.is_active = true)
    (hiat : c.iat ≠ now) :
    (∃ pair, (refresh_access_token db (.signed c) now).outcome = .ok pair) ∧
    isInvalidTokenErr
      (refresh_access_token (refresh_access_token db (.signed c) now).db
        (.signed c) now2).outcome = true := by
  have hs2tok : create_refresh_token (toString u.id) now ≠ JwtToken.signed c := by
    intro hEq
    simp only [create_refresh_token, create_access_token] at hEq
    injection hEq with h
    exact hiat (by rw [← h])
  have hfind2 := find?_refresh_updated_none db c s
    { s with
      token := create_access_token
        { sub := some (toString u.id), username := some u.username,
          role := some u.role } none now
      refresh_token := create_refresh_token (toString u.id) now
      expires_at := now + settings.JWT_EXPIRATION_HOURS * 3600
      refresh_expires_at := now + settings.REFRESH_TOKEN_EXPIRY_DAYS * 86400
      last_activity := some now }
    huniq rfl hs2tok
  constructor
  · exact ⟨(create_access_token
        { sub := some (toString u.id), username := some u.username,
          role := some u.role } none now,
      create_refresh_token (toString u.id) now), by
      simp [refresh_access_token, verify_token, hexp, htyp, hfind, hsexp, hsub,
        huser, hactive]⟩
  · by_cases hc2 : c.exp < now2
    · simp [refresh_access_token, verify_token, hexp, htyp, hfind, hsexp, hsub,
        huser, hactive, hc2, isInvalidTokenErr]
    · simp [refresh_access_token, verify_token, hexp, htyp, hfind, hsexp, hsub,
        huser, hactive, hc2, hfind2, isInvalidTokenErr]

/-- A concrete refresh-token claim set for the C4 witness. -/
def demo_refresh_claims : Claims :=
  { sub := some "1", typ := some "refresh", exp := 100000, iat := 0,
    iss := "WhatsApp Forensic Analyzer" }

/-- A concrete session row holding `demo_refresh_claims` for the C4 witness. -/
def demo_refresh_session : UserSession :=
  { id := 0, user_id := 1,
    token := .signed { sub := some "1", exp := 10000, iat := 0,
                       iss := "WhatsApp Forensic Analyzer" },
    refresh_token := .signed demo_refresh_claims,
    expires_at := 10000, refresh_expires_at := 20000 }

/-- Witness for C4 at a concrete input: the session of `demo_alice` is
refreshed at time 50 and the old refresh token replayed at time 60. -/
theorem c4_refresh_rotation_one_shot_witness :
    (∃ pair, (refresh_access_token
        { users := [demo_alice], sessions := [demo_refresh_session] }
        (.signed demo_refresh_claims) 50).outcome = .ok pair) ∧
    isInvalidTokenErr
      (refresh_access_token
        (refresh_access_token
          { users := [demo_alice], sessions := [demo_refresh_session] }
          (.signed demo_refresh_claims) 50).db
        (.signed demo_refresh_claims) 60).outcome = true :=
  c4_refresh_rotation_one_shot
    { users := [demo_alice], sessions := [demo_refresh_session] }
    demo_refresh_claims 50 60 demo_refresh_session demo_alice 1
    (by decide) (by decide) (by decide) (by decide) (by decide) (by decide)
    (by decide) rfl (by decide)

/-- C6: after `logout` revokes the session holding an access token, the
session lookup in `verify_session` — which filters on
`is_revoked == False` — finds no row, so `verify_session` returns `None`
for that token, regardless of the JWT itself: this holds even for a token
whose signature is valid and whose claimed expiry has not passed. -/
theorem c6_verify_session_revoked_none (db : Db) (tok : JwtToken) (now : Int)
    (s : UserSession)
    (hfind : db.sessions.find? (fun x => x.token == tok) = some s)
    (huniq : ∀ x ∈ db.sessions, x.token = tok → x = s) :
    (logout db tok).1 = true ∧
    verify_session (logout db tok).2 tok now =
      .ok { user := none, db := (logout db tok).2 } := by
  have h1 : logout db tok =
      (true,
       { db with
         sessions := updateSessionRow db.sessions { s with is_revoked := true } }) := by
    simp [logout, hfind]
  rw [h1]
  refine ⟨rfl, ?_⟩
  have hnone : (updateSessionRow db.sessions { s with is_revoked := true }).find?
      (fun x => x.token == tok && !x.is_revoked) = none := by
    rw [List.find?_eq_none]
    intro x hx hpred
    simp only [Bool.and_eq_true] at hpred
    have ht : x.token = tok := eq_of_beq hpred.1
    have hrev : (!x.is_revoked) = true := hpred.2
    rcases mem_updateSessionRow hx with rfl | ⟨hxl, hxid⟩
    · simp at hrev
    · exact hxid (by rw [huniq x hxl ht])
  rcases htok : verify_token tok now with _ | payload
  · simp [verify_session, htok]
  · rcases hsub : payload.sub with _ | uid
    · simp [verify_session, htok, hsub]
    · simp [verify_session, htok, hsub, hnone]

/-- A concrete access token for the C6 witness: validly signed, with claimed
expiry 10000, well after the witness time 100. -/
def demo_access_token : JwtToken :=
  .signed { sub := some "1", username := some "alice", role := some "examiner",
            exp := 10000, iat := 0, iss := "WhatsApp Forensic Analyzer" }

/-- A concrete live session row holding `demo_access_token`. -/
def demo_session : UserSession :=
  { id := 0, user_id := 1, token := demo_access_token,
    refresh_token := .signed demo_refresh_claims,
    expires_at := 10000, refresh_expires_at := 20000 }

/-- Witness for C6 at a concrete input: logout at time 100 of a token whose
JWT is valid until 10000, then `verify_session` at time 100. -/
theorem c6_verify_session_revoked_none_witness :
    (logout { users := [demo_alice], sessions := [demo_session] }
      demo_access_token).1 = true ∧
    verify_session
      (logout { users := [demo_alice], sessions := [demo_session] }
        demo_access_token).2 demo_access_token 100 =
      .ok { user := none,
            db := (logout { users := [demo_alice], sessions := [demo_session] }
              demo_access_token).2 } :=
  c6_verify_session_revoked_none
    { users := [demo_alice], sessions := [demo_session] }
    demo_access_token 100 demo_session (by decide) (by decide)

/-! ### C8: duplicate user creation -/

/-- C8: when the requested username (lowercased, as stored) or email equals
that of an existing user, `create_user` fails with the 400 duplicate
rejection — the spec taxonomy's `Conflict` — and the users table is
unchanged: no row is inserted. -/
theorem c8_create_user_duplicate_conflict (hashP : String → String) (db : Db)
    (ud : UserCreate) (cb : Option Nat)
    (h : (∃ u ∈ db.users, u.username = pyLower ud.username) ∨
         (∃ u ∈ db.users, u.email = ud.email)) :
    (∃ d, (create_user hashP db ud cb).outcome = .error (.conflict d)) ∧
    (create_user hashP db ud cb).db = db := by
  cases hfu : db.users.find? (fun u => u.username == pyLower ud.username) with
  | some e =>
      exact ⟨⟨"Username already registered", by simp [create_user, hfu]⟩,
        by simp [create_user, hfu]⟩
  | none =>
      have hnu : ∀ x ∈ db.users, ¬ x.username = pyLower ud.username := by
        intro x hx
        have hne := List.find?_eq_none.mp hfu x hx
        simpa using hne
      have he : ∃ u ∈ db.users, u.email = ud.email := by
        rcases h with ⟨u, hu, hun⟩ | he
        · exact absurd hun (hnu u hu)
        · exact he
      rcases he with ⟨u, hu, hue⟩
      cases hfe : db.users.find? (fun x => x.email == ud.email) with
      | none =>
          exact absurd (by simp [hue] : (fun x => x.email == ud.email) u = true)
            (List.find?_eq_none.mp hfe u hu)
      | some e =>
          exact ⟨⟨"Email already registered", by simp [create_user, hfu, hfe]⟩,
            by simp [create_user, hfu, hfe]⟩

/-- Witness for C8 at a concrete input: creating a second `alice`. -/
theorem c8_create_user_duplicate_conflict_witness :
    (∃ d, (create_user (fun p => "hashed:" ++ p) { users := [demo_alice] }
        { username := "alice", email := "new@example.com", password := "Xyz12345!" }
        none).outcome = .error (.conflict d)) ∧
    (create_user (fun p => "hashed:" ++ p) { users := [demo_alice] }
        { username := "alice", email := "new@example.com", password := "Xyz12345!" }
        none).db = { users := [demo_alice] } :=
  c8_create_user_duplicate_conflict (fun p => "hashed:" ++ p) { users := [demo_alice] }
    { username := "alice", email := "new@example.com", password := "Xyz12345!" } none
    (Or.inl ⟨demo_alice, by decide, by decide⟩)

end WFA
